import Mathlib

/-!
Verification of the temporal-spatial harmonization pipeline of
`exampleMODIS.js` (repository leobeckerdaluz/NPPalgorithm).

The script builds four raster time series (NDVI, LST, SOL, We) against a
remote raster provider (Google Earth Engine), applies a shared categorical
mask and hands the series to an external NPP model.  All provider calls are
description-building and lazily evaluated, so the pipeline is modelled in
two complementary ways:

* a *description* embedding (`ImgExpr`): each builder produces, per period,
  a term recording the exact chain of provider operations it requests, in
  application order — used for the structural claims (property tagging,
  reduce-before-reproject ordering);
* an exact *pixel semantics* over `ℚ` with `Option` for no-data — used for
  the numeric claims (unit conversions, ratio transform, division by zero,
  empty-window reductions).

Calendar dates (`ee.Date`, `advance(n, "day")`) are modelled as day numbers
via the standard civil-calendar conversion.
-/

/-- Day number (days since 1970-01-01) of the civil date y-m-d, the standard
`days_from_civil` algorithm; models `ee.Date('y-m-d')`, with
`advance(n, "day")` as `+ n`. -/
def daysFromCivil (y m d : Int) : Int :=
  let y1 := if m ≤ 2 then y - 1 else y
  let era := (if 0 ≤ y1 then y1 else y1 - 399) / 400
  let yoe := y1 - era * 400
  let mp := (m + 9) % 12
  let doy := (153 * mp + 2) / 5 + d - 1
  let doe := yoe * 365 + yoe / 4 - yoe / 100 + doy
  era * 146097 + doe - 719468

/-- A calendar date, transliterating an ISO `yyyy-mm-dd` string literal of
the script. -/
structure CivDate where
  y : Int
  m : Int
  d : Int
deriving DecidableEq, Repr

/-- Day number of a `CivDate`. -/
def CivDate.day (t : CivDate) : Int := daysFromCivil t.y t.m t.d

/-- Line 43: `var dates = ee.List(['2018-01-01','2018-01-17','2018-02-02','2018-02-18'])`. -/
def dates : List CivDate :=
  [⟨2018, 1, 1⟩, ⟨2018, 1, 17⟩, ⟨2018, 2, 2⟩, ⟨2018, 2, 18⟩]

/-- Lines 44-45 applied to an arbitrary anchor list:
`startDate = ee.Date(dates.get(0))` and
`endDate = ee.Date(dates.get(-1)).advance(1,"day")`.
`ee.List.get(0)` / `get(-1)` fail on an empty list (a provider error),
hence the `Option`; the construction performs no other validation. -/
def buildSchedule (anchors : List CivDate) : Option (Int × Int) :=
  match anchors.head?, anchors.getLast? with
  | some a, some b => some (a.day, b.day + 1)
  | _, _ => none

/-- Lines 44-45 on the script's anchor list: the filter range used by the
native-resolution NDVI source (lines 58-60). -/
def nativeFilterRange : Option (Int × Int) := buildSchedule dates

/-- Lines 77-80 (and identically 99-102, 120-123): each accumulated-source
builder maps over `dates` and filters
`[ee.Date(dateString), ee.Date(dateString).advance(16, "day"))`. -/
def accumulatedWindows (anchors : List CivDate) : List (Int × Int) :=
  anchors.map (fun t => (t.day, t.day + 16))

/-- C1: For the anchor list [2018-01-01, 2018-01-17, 2018-02-02, 2018-02-18]
the schedule produces exactly 4 accumulated-source windows, one starting at
each anchor and each exactly 16 days long, and a native-resolution filter
range equal to [2018-01-01, 2018-02-19]. -/
theorem schedule_windows_and_native_range :
    (accumulatedWindows dates).length = 4
    ∧ (accumulatedWindows dates).map Prod.fst = dates.map CivDate.day
    ∧ (∀ w ∈ accumulatedWindows dates, w.2 = w.1 + 16)
    ∧ nativeFilterRange =
        some ((CivDate.mk 2018 1 1).day, (CivDate.mk 2018 2 19).day) := by
  refine ⟨rfl, rfl, ?_, ?_⟩
  · decide
  · decide

/-- C5 counterexample: with a single anchor (fewer than 2 entries) the
schedule construction of lines 43-45 succeeds — no `ConfigurationError`
is signalled, contradicting the claim. -/
theorem single_anchor_schedule_succeeds :
    buildSchedule [⟨2018, 1, 1⟩] =
      some ((CivDate.mk 2018 1 1).day, (CivDate.mk 2018 1 1).day + 1) := by
  decide

/-- C5 (amended): schedule construction performs no validation at all — it
succeeds for every nonempty anchor list, including single-element and
non-strictly-increasing lists, and fails only on the empty list (a provider
list-index error, not a `ConfigurationError`). -/
theorem schedule_no_validation :
    (∀ anchors : List CivDate, (buildSchedule anchors).isSome ↔ anchors ≠ [])
    ∧ (buildSchedule [⟨2018, 2, 18⟩, ⟨2018, 1, 1⟩]).isSome = true := by
  constructor
  · intro anchors
    cases anchors with
    | nil => simp [buildSchedule]
    | cons a t =>
        simp only [buildSchedule, List.head?_cons]
        have h : (a :: t).getLast? = some ((a :: t).getLast (by simp)) :=
          List.getLast?_eq_getLast _ (by simp)
        rw [h]
        simp
  · decide

/-! ## Deferred-evaluation descriptions of the four series builders -/

/-- A temporal reduction operator of the provider (`.mean()` / `.sum()`). -/
inductive ReduceOp where
  | mean
  | sum
deriving DecidableEq, Repr

/-- A filtered collection query: collection id, `filterBounds(ROI)` flag,
`filterDate(ee.Date(start), ee.Date(start).advance(days, "day"))`, and an
optional `.select(band)` on the collection. -/
structure CollQuery where
  collName : String
  boundsROI : Bool
  windowStart : String
  windowDays : Int
  band : Option String
deriving DecidableEq, Repr

/-- Description of an image as the chain of provider calls that builds it,
exactly as issued by the script (innermost = first call applied). -/
inductive ImgExpr where
  | baseImg (collName : String) (band : String) (date : String)
  | reduce (op : ReduceOp) (q : CollQuery)
  | rename (band : String) (e : ImgExpr)
  | multiplyC (k : ℚ) (e : ImgExpr)
  | subtractC (k : ℚ) (e : ImgExpr)
  | divideC (k : ℚ) (e : ImgExpr)
  | addC (k : ℚ) (e : ImgExpr)
  | divide (a b : ImgExpr)
  | select (band : String) (e : ImgExpr)
  | clip (e : ImgExpr)
  | reproject (crs : String) (scale : ℚ) (e : ImgExpr)
  | set (key val : String) (e : ImgExpr)
deriving DecidableEq, Repr

/-- Lines 58-69: the NDVI builder maps each native composite image `img`
(16-day composite, own date `imgDate`) of `MODIS/061/MOD13Q1` (collection
filtered by bounds, the native date range and `.select('NDVI')`) through
clip → rename → multiply 0.0001 → reproject → set "date". -/
def collectionNDVI_img (imgDate : String) : ImgExpr :=
  ImgExpr.set "date" imgDate
    (ImgExpr.reproject "EPSG:4326" 250
      (ImgExpr.multiplyC 0.0001
        (ImgExpr.rename "NDVI"
          (ImgExpr.clip (ImgExpr.baseImg "MODIS/061/MOD13Q1" "NDVI" imgDate)))))

/-- Lines 77-88: the LST builder, per anchor `dateString`: 16-day window
mean of `MODIS/061/MOD11A2` band `LST_Day_1km`, then rename → multiply 0.02
→ subtract 273.15 → clip → reproject → set "date". -/
def collectionLST_img (dateString : String) : ImgExpr :=
  ImgExpr.set "date" dateString
    (ImgExpr.reproject "EPSG:4326" 250
      (ImgExpr.clip
        (ImgExpr.subtractC 273.15
          (ImgExpr.multiplyC 0.02
            (ImgExpr.rename "LST"
              (ImgExpr.reduce ReduceOp.mean
                ⟨"MODIS/061/MOD11A2", true, dateString, 16, some "LST_Day_1km"⟩))))))

/-- Lines 99-109: the SOL builder, per anchor `dateString`: 16-day window
sum of `ECMWF/ERA5_LAND/HOURLY` band
`surface_solar_radiation_downwards_hourly`, then rename → divide 1e6 →
clip → reproject → set "date". -/
def collectionSOL_img (dateString : String) : ImgExpr :=
  ImgExpr.set "date" dateString
    (ImgExpr.reproject "EPSG:4326" 250
      (ImgExpr.clip
        (ImgExpr.divideC 1000000
          (ImgExpr.rename "SOL"
            (ImgExpr.reduce ReduceOp.sum
              ⟨"ECMWF/ERA5_LAND/HOURLY", true, dateString, 16,
                some "surface_solar_radiation_downwards_hourly"⟩)))))

/-- Lines 122-125: `imageSum16days`, the 16-day sum of `MODIS/006/MOD16A2`
(both 8-day ET/PET bands summed together, no band selection before the
reduction). -/
def imageSum16days (dateString : String) : ImgExpr :=
  ImgExpr.reduce ReduceOp.sum ⟨"MODIS/006/MOD16A2", true, dateString, 16, none⟩

/-- Lines 120-138: the We builder, per anchor `dateString`:
`We = ET.divide(PET).multiply(0.5).add(0.5)` on the band selections of
`imageSum16days`, then rename → clip → reproject → set "data" (sic, line
137). -/
def collectionWe_img (dateString : String) : ImgExpr :=
  ImgExpr.set "data" dateString
    (ImgExpr.reproject "EPSG:4326" 250
      (ImgExpr.clip
        (ImgExpr.rename "We"
          (ImgExpr.addC 0.5
            (ImgExpr.multiplyC 0.5
              (ImgExpr.divide
                (ImgExpr.select "ET" (imageSum16days dateString))
                (ImgExpr.select "PET" (imageSum16days dateString))))))))

/-- The metadata properties set on a described image, outermost first
(binary band math keeps the first operand's metadata). -/
def propsOf : ImgExpr → List (String × String)
  | ImgExpr.baseImg _ _ _ => []
  | ImgExpr.reduce _ _ => []
  | ImgExpr.rename _ e => propsOf e
  | ImgExpr.multiplyC _ e => propsOf e
  | ImgExpr.subtractC _ e => propsOf e
  | ImgExpr.divideC _ e => propsOf e
  | ImgExpr.addC _ e => propsOf e
  | ImgExpr.divide a _ => propsOf a
  | ImgExpr.select _ e => propsOf e
  | ImgExpr.clip e => propsOf e
  | ImgExpr.reproject _ _ e => propsOf e
  | ImgExpr.set k v e => (k, v) :: propsOf e

/-- Tags naming each kind of provider call, for order-of-operations facts. -/
inductive OpTag where
  | base
  | reduceOp
  | renameOp
  | mulOp
  | subOp
  | divCOp
  | addOp
  | divOp
  | selectOp
  | clipOp
  | reprojectOp
  | setOp
deriving DecidableEq, Repr

/-- The provider calls of a description in application order (first call
applied first; for binary band math both operand chains precede the
operation). -/
def opTrace : ImgExpr → List OpTag
  | ImgExpr.baseImg _ _ _ => [OpTag.base]
  | ImgExpr.reduce _ _ => [OpTag.reduceOp]
  | ImgExpr.rename _ e => opTrace e ++ [OpTag.renameOp]
  | ImgExpr.multiplyC _ e => opTrace e ++ [OpTag.mulOp]
  | ImgExpr.subtractC _ e => opTrace e ++ [OpTag.subOp]
  | ImgExpr.divideC _ e => opTrace e ++ [OpTag.divCOp]
  | ImgExpr.addC _ e => opTrace e ++ [OpTag.addOp]
  | ImgExpr.divide a b => opTrace a ++ opTrace b ++ [OpTag.divOp]
  | ImgExpr.select _ e => opTrace e ++ [OpTag.selectOp]
  | ImgExpr.clip e => opTrace e ++ [OpTag.clipOp]
  | ImgExpr.reproject _ _ e => opTrace e ++ [OpTag.reprojectOp]
  | ImgExpr.set _ _ e => opTrace e ++ [OpTag.setOp]

/-- Keep only reduction and reprojection calls from a trace. -/
def reduceReprojectTrace (e : ImgExpr) : List OpTag :=
  (opTrace e).filter fun o => o = OpTag.reduceOp ∨ o = OpTag.reprojectOp

/-- C2 evaluated at the failing input (code bug): at every period the We
builder's last step sets a property named "data", not "date" — shown here at
dateString = "2018-01-01" — while the NDVI, LST and SOL builders do set
"date" as their last step. -/
theorem we_property_named_data_not_date :
    propsOf (collectionWe_img "2018-01-01") = [("data", "2018-01-01")]
    ∧ (propsOf (collectionWe_img "2018-01-01")).lookup "date" = none
    ∧ propsOf (collectionNDVI_img "2018-01-01") = [("date", "2018-01-01")]
    ∧ propsOf (collectionLST_img "2018-01-01") = [("date", "2018-01-01")]
    ∧ propsOf (collectionSOL_img "2018-01-01") = [("date", "2018-01-01")] := by
  refine ⟨rfl, rfl, rfl, rfl, rfl⟩

/-- C8: for every period, in each accumulated-source builder (LST, SOL, We)
the reduction(s) over the window's images happen strictly before the single
reprojection to the shared scale: restricted to reduction and reprojection
calls, each trace is its reductions followed by exactly one reprojection. -/
theorem reduce_before_reproject (dateString : String) :
    reduceReprojectTrace (collectionLST_img dateString) =
      [OpTag.reduceOp, OpTag.reprojectOp]
    ∧ reduceReprojectTrace (collectionSOL_img dateString) =
      [OpTag.reduceOp, OpTag.reprojectOp]
    ∧ reduceReprojectTrace (collectionWe_img dateString) =
      [OpTag.reduceOp, OpTag.reduceOp, OpTag.reprojectOp] := by
  refine ⟨rfl, rfl, rfl⟩

/-! ## Exact pixel semantics over ℚ (`none` = masked / no-data) -/

/-- Provider `.mean()` at one pixel over the raw values of the images in a
window: the empty reduction yields a fully-masked (no-data) pixel, not an
error. -/
def eeMean (vs : List ℚ) : Option ℚ :=
  if vs.isEmpty then none else some (vs.sum / vs.length)

/-- Provider `.sum()` at one pixel over the raw values of the images in a
window: the empty reduction yields a fully-masked (no-data) pixel, not an
error. -/
def eeSum (vs : List ℚ) : Option ℚ :=
  if vs.isEmpty then none else some vs.sum

/-- Provider `ee.Image.divide` at one pixel: division by zero yields a
masked (no-data) pixel, not an error. -/
def eeDivide (a b : ℚ) : Option ℚ :=
  if b = 0 then none else some (a / b)

/-- Lines 78-85, pixel value: `vs` are the raw `LST_Day_1km` values of the
window's images at one pixel; the builder takes `.mean()` then
`.multiply(0.02)` then `.subtract(273.15)`. -/
def lstPixel (vs : List ℚ) : Option ℚ :=
  (eeMean vs).map (fun v => v * 0.02 - 273.15)

/-- Lines 77-91, one pixel of the whole LST series: the builder maps every
anchor date to the reduction of that date's window, whatever the provider
returns for the window (`windowValues`). -/
def lstSeries (windowValues : String → List ℚ) (anchors : List String) :
    List (Option ℚ) :=
  anchors.map (fun d => lstPixel (windowValues d))

/-- Lines 122-130, pixel value: `ets` and `pets` are the raw ET and PET
values of the window's images at one pixel; the builder sums the collection,
selects the two bands and computes `ET.divide(PET).multiply(0.5).add(0.5)`. -/
def wePixel (ets pets : List ℚ) : Option ℚ :=
  match eeSum ets, eeSum pets with
  | some et, some pet => (eeDivide et pet).map (fun r => r * 0.5 + 0.5)
  | _, _ => none

/-- C3: the temperature conversion multiplies by the 0.02 scale before
subtracting the 273.15 offset, applied to the window mean; on raw value 300
it gives exactly 300·0.02 − 273.15 = −267.15. -/
theorem lst_scale_before_offset :
    (∀ vs : List ℚ, vs ≠ [] →
      lstPixel vs = some (vs.sum / vs.length * 0.02 - 273.15))
    ∧ lstPixel [300] = some (-267.15) := by
  constructor
  · intro vs h
    cases vs with
    | nil => exact absurd rfl h
    | cons a t => simp [lstPixel, eeMean]
  · norm_num [lstPixel, eeMean]

/-- C3 witness: the general clause of `lst_scale_before_offset` evaluated on
the concrete window [280, 320] (mean 300, converted −267.15). -/
theorem lst_scale_before_offset_inst :
    lstPixel [280, 320] = some ((280 + (320 + 0)) / 2 * 0.02 - 273.15) :=
  lst_scale_before_offset.1 [280, 320] (by simp)

/-- The provider sum of a nonempty window is the pixel's plain sum. -/
theorem eeSum_of_ne_nil (vs : List ℚ) (h : vs ≠ []) : eeSum vs = some vs.sum := by
  simp [eeSum, h]

/-- On two nonempty windows, `wePixel` is the ratio transform applied to the
provider division of the two sums. -/
theorem wePixel_of_ne_nil (ets pets : List ℚ) (he : ets ≠ []) (hp : pets ≠ []) :
    wePixel ets pets =
      (eeDivide ets.sum pets.sum).map (fun r => r * 0.5 + 0.5) := by
  rw [wePixel, eeSum_of_ne_nil ets he, eeSum_of_ne_nil pets hp]

/-- C4: the water-stress transform is (ET_sum / PET_sum)·0.5 + 0.5, so a
pixel with equal nonzero sums yields exactly 1 and a pixel with zero
numerator and nonzero denominator yields exactly 0.5. -/
theorem we_ratio_extremes :
    (∀ ets pets : List ℚ, ets ≠ [] → pets ≠ [] →
      ets.sum = pets.sum → pets.sum ≠ 0 → wePixel ets pets = some 1)
    ∧ (∀ ets pets : List ℚ, ets ≠ [] → pets ≠ [] →
      ets.sum = 0 → pets.sum ≠ 0 → wePixel ets pets = some 0.5) := by
  constructor
  · intro ets pets he hp hsum hnz
    rw [wePixel_of_ne_nil ets pets he hp, eeDivide, if_neg hnz, hsum,
      div_self hnz]
    norm_num
  · intro ets pets he hp hzero hnz
    rw [wePixel_of_ne_nil ets pets he hp, eeDivide, if_neg hnz, hzero]
    norm_num

/-- C4 witness: `we_ratio_extremes` applied to the concrete windows
([3, 4], [5, 2]) (equal sums 7) and ([2, −2], [5]) (zero numerator). -/
theorem we_ratio_extremes_inst :
    wePixel [3, 4] [5, 2] = some 1 ∧ wePixel [2, -2] [5] = some 0.5 :=
  ⟨we_ratio_extremes.1 [3, 4] [5, 2] (by simp) (by simp) (by norm_num) (by norm_num),
   we_ratio_extremes.2 [2, -2] [5] (by simp) (by simp) (by norm_num) (by norm_num)⟩

/-- C10: the We builder divides the summed ET by the summed PET with no
zero-denominator guard: a pixel whose PET sum is zero comes out as the
provider's division-by-zero result (no-data), and in general the output's
validity is exactly the validity of the provider division. -/
theorem we_division_unguarded :
    (∀ ets pets : List ℚ, pets ≠ [] → pets.sum = 0 → wePixel ets pets = none)
    ∧ (∀ ets pets : List ℚ, ets ≠ [] → pets ≠ [] →
      (wePixel ets pets).isSome = (eeDivide ets.sum pets.sum).isSome) := by
  constructor
  · intro ets pets hp hzero
    by_cases hets : ets = []
    · simp [wePixel, eeSum, hets]
    · rw [wePixel_of_ne_nil ets pets hets hp, eeDivide, hzero, if_pos rfl]
      rfl
  · intro ets pets he hp
    rw [wePixel_of_ne_nil ets pets he hp]
    cases hd : eeDivide ets.sum pets.sum <;> simp [hd]

/-- C10 witness: `we_division_unguarded` at the concrete windows
([2], [3, −3]) (PET sum zero → no-data) and ([2], [4]) (valid division). -/
theorem we_division_unguarded_inst :
    wePixel [2] [3, -3] = none
    ∧ (wePixel [2] [4]).isSome = (eeDivide (List.sum [2]) (List.sum [4])).isSome :=
  ⟨we_division_unguarded.1 [2] [3, -3] (by simp) (by norm_num),
   we_division_unguarded.2 [2] [4] (by simp) (by simp)⟩

/-- C9: a period window with zero contributing images does not raise: the
series still has one entry per anchor (the builder is a total map over the
anchor list), and the empty window's entry is the no-data pixel produced by
the provider's empty mean. -/
theorem empty_window_is_nodata_entry :
    (∀ (windowValues : String → List ℚ) (anchors : List String),
      (lstSeries windowValues anchors).length = anchors.length)
    ∧ (∀ (windowValues : String → List ℚ) (d : String),
      windowValues d = [] → lstPixel (windowValues d) = none) := by
  constructor
  · intro windowValues anchors
    simp [lstSeries]
  · intro windowValues d h
    rw [h]
    rfl

/-- C9 witness: `empty_window_is_nodata_entry` at a provider with no
coverage at all and the first two anchors: the series keeps length 2 and the
gap entry is no-data. -/
theorem empty_window_is_nodata_entry_inst :
    (lstSeries (fun _ => []) ["2018-01-01", "2018-01-17"]).length = 2
    ∧ lstPixel ((fun (_ : String) => ([] : List ℚ)) "2018-01-01") = none :=
  ⟨empty_window_is_nodata_entry.1 (fun _ => []) ["2018-01-01", "2018-01-17"],
   empty_window_is_nodata_entry.2 (fun _ => []) "2018-01-01" rfl⟩

/-! ## The shared categorical mask (Harmonizer step) -/

/-- A raster image over a pixel type `P`: a value and a mask weight in
[0, 1] per pixel (mask 0 = invalid / no-data). -/
structure EEImage (P : Type) where
  value : P → ℚ
  mask : P → ℚ

/-- Clamp a mask weight into [0, 1], as the provider does. -/
def clamp01 (x : ℚ) : ℚ := max 0 (min x 1)

/-- Provider `img.updateMask(m)`: the mask is updated at all positions where
the existing mask is not zero (already-invalid pixels stay invalid; elsewhere
the new mask value, clamped to [0, 1], takes effect). -/
def EEImage.updateMask (img : EEImage P) (m : EEImage P) : EEImage P where
  value := img.value
  mask := fun p => if img.mask p = 0 then 0 else clamp01 (m.mask p)

/-- Line 184: `var maskCollections = function(img){return img.updateMask(soybeanMask)}`,
mapped over all four collections in lines 186-189. -/
def maskCollections (soybeanMask : EEImage P) (img : EEImage P) : EEImage P :=
  img.updateMask soybeanMask

/-- C6: applying the shared mask twice with the same mask equals applying it
once, for every entry and every mask. -/
theorem maskCollections_idempotent (P : Type) (soybeanMask img : EEImage P) :
    maskCollections soybeanMask (maskCollections soybeanMask img) =
      maskCollections soybeanMask img := by
  show EEImage.mk _ _ = EEImage.mk _ _
  congr 1
  funext p
  simp only [maskCollections, EEImage.updateMask]
  by_cases h : img.mask p = 0
  · simp [h]
  · by_cases hm : clamp01 (soybeanMask.mask p) = 0
    · simp [h, hm]
    · simp [h, hm]

/-! ## The batch NPP entry point (external computeNPP module) -/

/-- Zip four lists with a 4-ary function, truncating at the shortest. -/
def zipWith4 (f : α → α → α → α → β) :
    List α → List α → List α → List α → List β
  | a :: as, b :: bs, c :: cs, d :: ds =>
      f a b c d :: zipWith4 f as bs cs ds
  | _, _, _, _ => []

/-- On four lists of equal length, `zipWith4` keeps that length. -/
theorem zipWith4_length (f : α → α → α → α → β) :
    ∀ (as bs cs ds : List α), as.length = bs.length →
      as.length = cs.length → as.length = ds.length →
      (zipWith4 f as bs cs ds).length = as.length := by
  intro as
  induction as with
  | nil =>
      intro bs cs ds hb hc hd
      cases bs <;> cases cs <;> cases ds <;> simp_all [zipWith4]
  | cons a as ih =>
      intro bs cs ds hb hc hd
      cases bs with
      | nil => simp at hb
      | cons b bs =>
          cases cs with
          | nil => simp at hc
          | cons c cs =>
              cases ds with
              | nil => simp at hd
              | cons d ds =>
                  simp only [zipWith4, List.length_cons, Nat.add_right_cancel_iff]
                  exact ih bs cs ds (by simpa using hb) (by simpa using hc)
                    (by simpa using hd)

/-- Modelled from the spec: the batch entry point `collectionNPP` of the
`computeNPP` module (required at line 197 from
`users/leobeckerdaluz/NPP_algorithm:computeNPP`, whose source is not part of
this repository checkout).  Per the spec it aligns the four harmonized
series by period index and delegates each aligned 4-tuple to the
single-period model; all four series having equal length is a precondition
whose violation is a `ConfigurationError` aborting before the model runs. -/
def collectionNPP (singleNPP : α → α → α → α → ℚ → ℚ → β)
    (ndvi lst sol we : List α) (topt luemax : ℚ) : Except String (List β) :=
  if ndvi.length = lst.length ∧ ndvi.length = sol.length
      ∧ ndvi.length = we.length then
    Except.ok (zipWith4 (fun n l s w => singleNPP n l s w topt luemax)
      ndvi lst sol we)
  else
    Except.error "ConfigurationError"

/-- C7: with four series of equal length N the batch entry point returns an
ordered sequence of exactly N NPP images; with unequal lengths it signals a
`ConfigurationError` instead of invoking the model. -/
theorem collectionNPP_length_or_error (singleNPP : α → α → α → α → ℚ → ℚ → β)
    (ndvi lst sol we : List α) (topt luemax : ℚ) :
    (ndvi.length = lst.length ∧ ndvi.length = sol.length
        ∧ ndvi.length = we.length →
      ∃ out, collectionNPP singleNPP ndvi lst sol we topt luemax =
          Except.ok out ∧ out.length = ndvi.length)
    ∧ (¬(ndvi.length = lst.length ∧ ndvi.length = sol.length
        ∧ ndvi.length = we.length) →
      collectionNPP singleNPP ndvi lst sol we topt luemax =
        Except.error "ConfigurationError") := by
  constructor
  · intro h
    refine ⟨zipWith4 (fun n l s w => singleNPP n l s w topt luemax)
      ndvi lst sol we, ?_, ?_⟩
    · rw [collectionNPP, if_pos h]
    · exact zipWith4_length _ ndvi lst sol we h.1 h.2.1 h.2.2
  · intro h
    rw [collectionNPP, if_neg h]

/-- C7 witness: `collectionNPP_length_or_error` at a concrete model function
and concrete series — four series of length 4 give 4 ordered outputs, and
series of lengths 4, 4, 4, 3 give a `ConfigurationError`. -/
theorem collectionNPP_length_or_error_inst :
    (∃ out, collectionNPP (fun n l s w _ _ => n + l + s + (w : ℚ))
        [1, 2, 3, 4] [5, 6, 7, 8] [9, 10, 11, 12] [13, 14, 15, 16]
        24.85 0.926 = Except.ok out
      ∧ out.length = ([1, 2, 3, 4] : List ℚ).length)
    ∧ collectionNPP (fun n l s w _ _ => n + l + s + (w : ℚ))
        [1, 2, 3, 4] [5, 6, 7, 8] [9, 10, 11, 12] [13, 14, 15]
        24.85 0.926 = Except.error "ConfigurationError" :=
  ⟨(collectionNPP_length_or_error _ _ _ _ _ _ _).1 (by simp),
   (collectionNPP_length_or_error _ _ _ _ _ _ _).2 (by simp)⟩
